import Mathlib

/-!
Verification of `src/Project/static/javascripts/home.js`.

The file is client-side page behavior: CSV file-input enhancement
(drag-and-drop, label/text updates), conditional initialization of a
third-party data-table widget (pre-rendered table or an AJAX endpoint),
and cosmetic animation triggers.  We embed the DOM state the handlers
touch and each handler as a pure function on that state; browser-side
effects (alerts, dispatched events, scheduled timeouts, HTTP requests)
are returned explicitly.
-/

/-- A dropped or selected file, as seen through the browser File API:
its MIME type (`file.type`) and its name (`file.name`). -/
structure File where
  type : String
  name : String
  deriving DecidableEq, Repr

/-- The part of the DOM the file-input enhancement reads and writes:
the input element `#csvFileInput` (its `files` list), the label
`.file-input-label` (its class list and inline styles), the `.file-text`
element (its text content), and the optional `.file-info` /
`.filename-text` elements. -/
structure DomState where
  inputFiles : List File
  labelClasses : List String
  fileText : String
  labelBorderColor : String
  labelBackground : String
  fileInfoPresent : Bool
  filenameTextPresent : Bool
  filenameText : String
  deriving DecidableEq, Repr

/-- `classList.add`: appends the token unless it is already present. -/
def classAdd (cs : List String) (c : String) : List String :=
  if c ∈ cs then cs else cs ++ [c]

/-- `classList.remove`: removes the token wherever it occurs. -/
def classRemove (cs : List String) (c : String) : List String :=
  cs.filter (fun x => x ≠ c)

/-- JS `String.prototype.endsWith`, on the character sequence. -/
def strEndsWith (s suffix : String) : Bool :=
  suffix.data.isSuffixOf s.data

/-- The `change` listener on `#csvFileInput` (home.js lines 16-40):
with a first file present, show its name in `.file-text`, add the
`file-selected` class and the success styles, and mirror the name into
`.filename-text` when `.file-info` and `.filename-text` both exist;
with no file, revert the text, the class and the styles. -/
def changeHandler (s : DomState) : DomState :=
  match s.inputFiles with
  | file :: _ =>
    let s1 := { s with
      fileText := file.name,
      labelClasses := classAdd s.labelClasses "file-selected",
      labelBorderColor := "var(--success)",
      labelBackground := "var(--success-light)" }
    if s1.fileInfoPresent && s1.filenameTextPresent then
      { s1 with filenameText := file.name }
    else
      s1
  | [] =>
    { s with
      fileText := "Choose CSV File",
      labelClasses := classRemove s.labelClasses "file-selected",
      labelBorderColor := "var(--primary)",
      labelBackground := "var(--input-bg)" }

/-- The `dragover` listener on the label (home.js lines 43-46). -/
def dragoverHandler (s : DomState) : DomState :=
  { s with labelClasses := classAdd s.labelClasses "drag-over" }

/-- The `dragleave` listener on the label (home.js lines 48-51). -/
def dragleaveHandler (s : DomState) : DomState :=
  { s with labelClasses := classRemove s.labelClasses "drag-over" }

/-- Browser-side effects of one run of the drop listener: the alerts it
showed and whether it dispatched a `change` event on the input. -/
structure DropEffect where
  alerts : List String
  changeDispatched : Bool
  deriving DecidableEq, Repr

/-- The `drop` listener on the label (home.js lines 53-67), taking the
event's `dataTransfer.files` list.  It always removes the `drag-over`
class; with a non-empty list whose first file has MIME type `text/csv`
or a name ending in `.csv`, it assigns the list to the input's `files`
and dispatches `change` (which runs `changeHandler` on the new state);
otherwise, with a non-empty list, it alerts. -/
def dropHandler (dtFiles : List File) (s : DomState) : DomState × DropEffect :=
  let s0 := { s with labelClasses := classRemove s.labelClasses "drag-over" }
  match dtFiles with
  | [] => (s0, { alerts := [], changeDispatched := false })
  | file :: _ =>
    if file.type = "text/csv" ∨ strEndsWith file.name ".csv" = true then
      (changeHandler { s0 with inputFiles := dtFiles },
       { alerts := [], changeDispatched := true })
    else
      (s0, { alerts := ["Please select a CSV file."], changeDispatched := false })

/-- Which of the three DOM elements guarding the file-input section are
present at ready time (home.js lines 11-15). -/
structure ReadyPresence where
  fileInputPresent : Bool
  fileLabelPresent : Bool
  fileTextPresent : Bool
  deriving DecidableEq, Repr

/-- The ready-time setup of the file-input section (home.js lines 15-68):
when all three elements are present it attaches the four listeners and
touches nothing else; when any is missing it does nothing.  The result
is the (unchanged) DOM state and the list of attached listener kinds. -/
def fileSectionSetup (p : ReadyPresence) (s : DomState) : DomState × List String :=
  if p.fileInputPresent && p.fileLabelPresent && p.fileTextPresent then
    (s, ["change", "dragover", "dragleave", "drop"])
  else
    (s, [])

lemma mem_classAdd_self (cs : List String) (c : String) : c ∈ classAdd cs c := by
  unfold classAdd
  split
  · assumption
  · simp

lemma not_mem_classRemove_self (cs : List String) (c : String) :
    c ∉ classRemove cs c := by
  simp [classRemove]

lemma not_mem_classAdd (cs : List String) {c d : String} (hne : c ≠ d)
    (h : c ∉ cs) : c ∉ classAdd cs d := by
  unfold classAdd
  split
  · exact h
  · simp [h, hne]

/-- One entry of the `columns` array returned by GET `/data`.  The code
never inspects these entries; it passes them through to the widget. -/
structure ColumnSpec where
  data : String
  deriving DecidableEq, Repr

/-- The JSON body of a successful GET `/data` response; `columns := none`
models a missing or null `columns` field. -/
structure DataJson where
  columns : Option (List ColumnSpec)
  deriving DecidableEq, Repr

/-- Outcome of the `$.ajax` GET `/data` call: a parsed JSON body on
success, or a failure (no error callback is registered in the code). -/
inductive AjaxOutcome where
  | success (json : DataJson)
  | failure
  deriving DecidableEq, Repr

/-- The DataTable option object, restricted to the options the code sets
(options the code omits are recorded at the widget's defaults:
`serverSide`/`processing` false, no `ajax`, no `columns`, no
`columnDefs` default content).  The `language` strings are presentation
only and are not modeled. -/
structure DataTableConfig where
  serverSide : Bool
  processing : Bool
  ajaxUrl : Option String
  pageLength : Nat
  lengthMenu : List Nat
  autoWidth : Bool
  responsive : Bool
  columns : Option (List ColumnSpec)
  defaultContentAll : Option String
  domLayout : String
  deriving DecidableEq, Repr

/-- The option object passed to `DataTable` on the pre-rendered table
(home.js lines 74-101). -/
def preRenderedConfig : DataTableConfig :=
  { serverSide := false
    processing := false
    ajaxUrl := none
    pageLength := 5
    lengthMenu := [5, 10, 20, 50]
    autoWidth := false
    responsive := true
    columns := none
    defaultContentAll := none
    domLayout := "<\"top\"lf>rt<\"bottom\"ip><\"clear\">" }

/-- The option object passed to `DataTable` on `#csvTable` in the AJAX
success callback (home.js lines 109-133), given the response's columns. -/
def serverSideConfig (cols : List ColumnSpec) : DataTableConfig :=
  { serverSide := true
    processing := true
    ajaxUrl := some "/data"
    pageLength := 5
    lengthMenu := [5, 10, 20, 50]
    autoWidth := false
    responsive := true
    columns := some cols
    defaultContentAll := some ""
    domLayout := "<\"top\"lf>rt<\"bottom\"ip><\"clear\">" }

/-- The `$.ajax` success callback (home.js lines 107-134): it returns
without initializing anything when `json.columns` is missing or empty,
and otherwise initializes the DataTable on `#csvTable` with the
server-side option object. -/
def ajaxSuccessHandler (json : DataJson) : Option DataTableConfig :=
  match json.columns with
  | none => none
  | some cols => if cols.length = 0 then none else some (serverSideConfig cols)

/-- The whole AJAX path: on failure nothing runs (no error callback);
on success the success callback decides.  The result is the
configuration of the widget initialized on `#csvTable`, if any. -/
def ajaxPathResult (o : AjaxOutcome) : Option DataTableConfig :=
  match o with
  | AjaxOutcome.success json => ajaxSuccessHandler json
  | AjaxOutcome.failure => none

/-- A DOM element, reduced to what the branch reads: the id of its
parent element (`none` when it has no parent). -/
structure DomElement where
  parentId : Option String
  deriving DecidableEq, Repr

/-- The two element lookups of home.js line 71: the result of
`querySelector("#csvTableContainer table")` (the first table descendant
of the container, whose direct parent may be any element) and of
`getElementById("csvTable")`. -/
structure TableDom where
  containerTable : Option DomElement
  csvTableById : Option DomElement
  deriving DecidableEq, Repr

/-- What the DataTable branch does at ready time: initialize directly on
the found element, issue a GET to an URL, or nothing. -/
inductive InitAction where
  | directInit (cfg : DataTableConfig)
  | ajaxGet (url : String)
  | noAction
  deriving DecidableEq, Repr

/-- `querySelector("#csvTableContainer table") || getElementById("csvTable")`
(home.js line 71). -/
def selectedTableEl (d : TableDom) : Option DomElement :=
  match d.containerTable with
  | some el => some el
  | none => d.csvTableById

/-- The DataTable dispatch (home.js lines 71-137): with no element found
nothing happens; with an element whose parent's id is
`csvTableContainer` the widget is initialized directly on it; otherwise
a GET `/data` is issued (whose success callback is `ajaxSuccessHandler`). -/
def tableInitStep (d : TableDom) : InitAction :=
  match selectedTableEl d with
  | none => InitAction.noAction
  | some el =>
    if el.parentId = some "csvTableContainer" then
      InitAction.directInit preRenderedConfig
    else
      InitAction.ajaxGet "/data"

/-- The dispatch as claim C2 words it: a table inside the container whose
parent element's id is `csvTableContainer` gives the direct path;
otherwise an existing `#csvTable` gives the AJAX path; otherwise
nothing.  Stated for comparison with `tableInitStep`. -/
def tableInitClaimC2 (d : TableDom) : InitAction :=
  match d.containerTable with
  | some el =>
    if el.parentId = some "csvTableContainer" then
      InitAction.directInit preRenderedConfig
    else if d.csvTableById.isSome then
      InitAction.ajaxGet "/data"
    else
      InitAction.noAction
  | none =>
    if d.csvTableById.isSome then
      InitAction.ajaxGet "/data"
    else
      InitAction.noAction

/-- Inline style of the `.btn.large` button: its `transform` property
and the remaining inline properties, which the handler never touches. -/
structure ButtonStyle where
  transform : String
  rest : List (String × String)
  deriving DecidableEq, Repr

/-- A timeout scheduled by the handler, with its delay in milliseconds. -/
structure PendingTimeout where
  delayMs : Nat
  deriving DecidableEq, Repr

/-- The click listener on `.btn.large` (home.js lines 142-148): set
`transform` to `scale(0.98)` and schedule a 150 ms timeout. -/
def buttonClickHandler (b : ButtonStyle) : ButtonStyle × PendingTimeout :=
  ({ b with transform := "scale(0.98)" }, { delayMs := 150 })

/-- The body of that timeout (home.js line 146): clear `transform`. -/
def buttonTimeoutCallback (b : ButtonStyle) : ButtonStyle :=
  { b with transform := "" }

lemma changeHandler_inputFiles (s : DomState) :
    (changeHandler s).inputFiles = s.inputFiles := by
  unfold changeHandler
  rcases hs : s.inputFiles with _ | ⟨f, rest⟩ <;> simp [hs]
  split <;> rfl

lemma changeHandler_fileText_cons (s : DomState) (f : File) (rest : List File)
    (h : s.inputFiles = f :: rest) : (changeHandler s).fileText = f.name := by
  simp only [changeHandler, h]
  split <;> rfl

lemma changeHandler_labelClasses_cons (s : DomState) (f : File) (rest : List File)
    (h : s.inputFiles = f :: rest) :
    (changeHandler s).labelClasses = classAdd s.labelClasses "file-selected" := by
  simp only [changeHandler, h]
  split <;> rfl

lemma changeHandler_filenameText_cons (s : DomState) (f : File) (rest : List File)
    (h : s.inputFiles = f :: rest) (hfi : s.fileInfoPresent = true)
    (hft : s.filenameTextPresent = true) :
    (changeHandler s).filenameText = f.name := by
  simp [changeHandler, h, hfi, hft]

lemma changeHandler_nil (s : DomState) (h : s.inputFiles = []) :
    (changeHandler s).fileText = "Choose CSV File" ∧
    (changeHandler s).labelClasses = classRemove s.labelClasses "file-selected" := by
  simp [changeHandler, h]

lemma dropHandler_cons_accept (s : DomState) (f : File) (rest : List File)
    (h : f.type = "text/csv" ∨ strEndsWith f.name ".csv" = true) :
    dropHandler (f :: rest) s =
      (changeHandler
        { s with labelClasses := classRemove s.labelClasses "drag-over",
                 inputFiles := f :: rest },
       { alerts := [], changeDispatched := true }) := by
  simp [dropHandler, h]

/-- A concrete DOM state used by the witnesses below. -/
def domState0 : DomState :=
  { inputFiles := []
    labelClasses := ["drag-over"]
    fileText := "Choose CSV File"
    labelBorderColor := ""
    labelBackground := ""
    fileInfoPresent := true
    filenameTextPresent := true
    filenameText := "" }

/-- Claim C1: a drop whose non-empty `dataTransfer.files` starts with a
file of MIME type other than `text/csv` whose name does not end in
`.csv` shows the alert "Please select a CSV file.", leaves the input's
`files` unchanged and dispatches no `change` event; only the
`drag-over` class is removed. -/
theorem drop_non_csv_alert (s : DomState) (f : File) (rest : List File)
    (hty : f.type ≠ "text/csv") (hname : strEndsWith f.name ".csv" = false) :
    dropHandler (f :: rest) s =
      ({ s with labelClasses := classRemove s.labelClasses "drag-over" },
       { alerts := ["Please select a CSV file."], changeDispatched := false }) := by
  simp [dropHandler, hty, hname]

/-- Witness for C1 at a concrete non-CSV drop. -/
theorem drop_non_csv_alert_witness :
    dropHandler [{ type := "text/plain", name := "notes.txt" }] domState0 =
      ({ domState0 with labelClasses := classRemove domState0.labelClasses "drag-over" },
       { alerts := ["Please select a CSV file."], changeDispatched := false }) :=
  drop_non_csv_alert domState0 { type := "text/plain", name := "notes.txt" } []
    (by decide) (by decide)

/-- A concrete DOM state with one selected file, for the witnesses. -/
def domState1 : DomState :=
  { domState0 with inputFiles := [{ type := "text/csv", name := "data.csv" }] }

/-- Claim C4: a drop whose non-empty `dataTransfer.files` starts with a
file of MIME type `text/csv` or with a name ending in `.csv` (either
disjunct suffices) assigns the dropped list to the input's `files`,
dispatches a `change` event (no alert), and the label text becomes that
file's name. -/
theorem drop_csv_accepts (s : DomState) (f : File) (rest : List File)
    (h : f.type = "text/csv" ∨ strEndsWith f.name ".csv" = true) :
    (dropHandler (f :: rest) s).1.inputFiles = f :: rest ∧
    (dropHandler (f :: rest) s).2.changeDispatched = true ∧
    (dropHandler (f :: rest) s).2.alerts = [] ∧
    (dropHandler (f :: rest) s).1.fileText = f.name := by
  rw [dropHandler_cons_accept s f rest h]
  refine ⟨?_, rfl, rfl, ?_⟩
  · rw [changeHandler_inputFiles]
  · exact changeHandler_fileText_cons _ f rest rfl

/-- Witness for C4: a file whose MIME type is not `text/csv` but whose
name ends in `.csv` is accepted. -/
theorem drop_csv_accepts_witness :
    (dropHandler [{ type := "text/plain", name := "data.csv" }] domState0).1.inputFiles =
      [{ type := "text/plain", name := "data.csv" }] ∧
    (dropHandler [{ type := "text/plain", name := "data.csv" }] domState0).2.changeDispatched = true ∧
    (dropHandler [{ type := "text/plain", name := "data.csv" }] domState0).2.alerts = [] ∧
    (dropHandler [{ type := "text/plain", name := "data.csv" }] domState0).1.fileText = "data.csv" :=
  drop_csv_accepts domState0 { type := "text/plain", name := "data.csv" } []
    (Or.inr (by decide))

/-- Claim C5: on every `change` event of `#csvFileInput`, with a first
file the `.file-text` content becomes the file's name, the label gains
the `file-selected` class, and `.filename-text` (when `.file-info` and
it both exist) is set to the name; with no file the text reverts to
"Choose CSV File" and `file-selected` is removed. -/
theorem change_event_spec (s : DomState) :
    (∀ f rest, s.inputFiles = f :: rest →
      (changeHandler s).fileText = f.name ∧
      "file-selected" ∈ (changeHandler s).labelClasses ∧
      (s.fileInfoPresent = true → s.filenameTextPresent = true →
        (changeHandler s).filenameText = f.name)) ∧
    (s.inputFiles = [] →
      (changeHandler s).fileText = "Choose CSV File" ∧
      "file-selected" ∉ (changeHandler s).labelClasses) := by
  constructor
  · intro f rest h
    refine ⟨changeHandler_fileText_cons s f rest h, ?_, ?_⟩
    · rw [changeHandler_labelClasses_cons s f rest h]
      exact mem_classAdd_self _ _
    · intro hfi hft
      exact changeHandler_filenameText_cons s f rest h hfi hft
  · intro h
    obtain ⟨h1, h2⟩ := changeHandler_nil s h
    refine ⟨h1, ?_⟩
    rw [h2]
    exact not_mem_classRemove_self _ _

/-- Witness for C5, at a state with one selected file and at one with
none. -/
theorem change_event_spec_witness :
    (changeHandler domState1).fileText = "data.csv" ∧
    "file-selected" ∈ (changeHandler domState1).labelClasses ∧
    (changeHandler domState1).filenameText = "data.csv" ∧
    (changeHandler domState0).fileText = "Choose CSV File" ∧
    "file-selected" ∉ (changeHandler domState0).labelClasses := by
  have h1 := (change_event_spec domState1).1 { type := "text/csv", name := "data.csv" } [] rfl
  have h2 := (change_event_spec domState0).2 rfl
  exact ⟨h1.1, h1.2.1, h1.2.2 rfl rfl, h2.1, h2.2⟩

/-- Claim C6: when any of `#csvFileInput`, `.file-input-label`,
`.file-text` is absent at ready time, the file-input section attaches
no listener and leaves the DOM state unchanged. -/
theorem file_section_skip (p : ReadyPresence) (s : DomState)
    (h : p.fileInputPresent = false ∨ p.fileLabelPresent = false ∨
      p.fileTextPresent = false) :
    fileSectionSetup p s = (s, []) := by
  unfold fileSectionSetup
  rcases h with h | h | h <;> simp [h]

/-- Witness for C6 with the input element missing. -/
theorem file_section_skip_witness :
    fileSectionSetup
      { fileInputPresent := false, fileLabelPresent := true, fileTextPresent := true }
      domState0 = (domState0, []) :=
  file_section_skip _ domState0 (Or.inl rfl)

/-- Claim C9: a drop with an empty `dataTransfer.files` list only removes
the `drag-over` class: no alert, no `change` event, and every other
part of the state (the input's `files` included) is unchanged. -/
theorem drop_empty_noop (dtFiles : List File) (s : DomState)
    (h : dtFiles.length = 0) :
    dropHandler dtFiles s =
      ({ s with labelClasses := classRemove s.labelClasses "drag-over" },
       { alerts := [], changeDispatched := false }) := by
  have h0 : dtFiles = [] := List.length_eq_zero.mp h
  subst h0
  rfl

/-- Witness for C9 at the empty list. -/
theorem drop_empty_noop_witness :
    dropHandler [] domState0 =
      ({ domState0 with labelClasses := classRemove domState0.labelClasses "drag-over" },
       { alerts := [], changeDispatched := false }) :=
  drop_empty_noop [] domState0 rfl

/-- Claim C10: `dragover` adds the `drag-over` class, and `dragleave` and
`drop` (whatever was dropped) leave the label without it, so any drag
interaction ending in `dragleave` or `drop` clears the class. -/
theorem drag_over_lifecycle (s : DomState) (dtFiles : List File) :
    "drag-over" ∈ (dragoverHandler s).labelClasses ∧
    "drag-over" ∉ (dragleaveHandler s).labelClasses ∧
    "drag-over" ∉ (dropHandler dtFiles s).1.labelClasses := by
  refine ⟨mem_classAdd_self _ _, not_mem_classRemove_self _ _, ?_⟩
  cases dtFiles with
  | nil => exact not_mem_classRemove_self _ _
  | cons f rest =>
    by_cases h : f.type = "text/csv" ∨ strEndsWith f.name ".csv" = true
    · rw [dropHandler_cons_accept s f rest h]
      rw [changeHandler_labelClasses_cons _ f rest rfl]
      exact not_mem_classAdd _ (by decide) (not_mem_classRemove_self _ _)
    · simp only [dropHandler, if_neg h]
      exact not_mem_classRemove_self _ _

/-- Claim C3: in the AJAX path a DataTable is initialized on `#csvTable`
if and only if the GET `/data` call succeeds with a JSON body whose
`columns` field is a non-empty array; on failure, or with a missing or
empty `columns` array, nothing is initialized and no error action is
taken. -/
theorem ajax_table_init_iff (o : AjaxOutcome) :
    (ajaxPathResult o).isSome = true ↔
      ∃ cols, o = AjaxOutcome.success { columns := some cols } ∧ cols ≠ [] := by
  cases o with
  | failure => simp [ajaxPathResult]
  | success json =>
    obtain ⟨columns⟩ := json
    cases columns with
    | none => simp [ajaxPathResult, ajaxSuccessHandler]
    | some cols =>
      by_cases h : cols = []
      · subst h
        simp [ajaxPathResult, ajaxSuccessHandler]
      · simp [ajaxPathResult, ajaxSuccessHandler, h, List.length_eq_zero]

/-- Witness for C3 at a one-column success response. -/
theorem ajax_table_init_iff_witness :
    (ajaxPathResult (AjaxOutcome.success { columns := some [{ data := "c0" }] })).isSome =
      true :=
  (ajax_table_init_iff _).mpr ⟨[{ data := "c0" }], rfl, by simp⟩

/-- Claim C7: with a non-empty `columns` array in the initial response,
the AJAX path initializes the widget in server-side paging mode
(`serverSide` true, `ajax` endpoint `/data`), with the response's
columns, page length 5 and length menu [5, 10, 20, 50]. -/
theorem ajax_config_server_side (cols : List ColumnSpec) (h : cols ≠ []) :
    ajaxPathResult (AjaxOutcome.success { columns := some cols }) =
      some (serverSideConfig cols) ∧
    (serverSideConfig cols).serverSide = true ∧
    (serverSideConfig cols).ajaxUrl = some "/data" ∧
    (serverSideConfig cols).columns = some cols ∧
    (serverSideConfig cols).pageLength = 5 ∧
    (serverSideConfig cols).lengthMenu = [5, 10, 20, 50] := by
  refine ⟨?_, rfl, rfl, rfl, rfl, rfl⟩
  simp [ajaxPathResult, ajaxSuccessHandler, List.length_eq_zero, h]

/-- Witness for C7 at a one-column response. -/
theorem ajax_config_server_side_witness :
    ajaxPathResult (AjaxOutcome.success { columns := some [{ data := "c1" }] }) =
      some (serverSideConfig [{ data := "c1" }]) :=
  (ajax_config_server_side [{ data := "c1" }] (by simp)).1

/-- A page whose only table inside `#csvTableContainer` sits below an
intermediate wrapper element, and which has no `#csvTable` element. -/
def nestedTableDom : TableDom :=
  { containerTable := some { parentId := some "wrapper" }
    csvTableById := none }

/-- Counterexample to claim C2 as stated: with the only table inside
`#csvTableContainer` nested below an intermediate wrapper (so its
parent element's id is not `csvTableContainer`) and no `#csvTable`
element, the claim prescribes no initialization and no request, but the
code takes the AJAX branch and issues the GET `/data` request. -/
theorem table_init_claim_counterexample :
    tableInitStep nestedTableDom = InitAction.ajaxGet "/data" ∧
    tableInitClaimC2 nestedTableDom = InitAction.noAction ∧
    InitAction.ajaxGet "/data" ≠ InitAction.noAction :=
  ⟨rfl, rfl, fun h => InitAction.noConfusion h⟩

/-- Claim C2 amended: exactly one initialization path is taken, decided
by the first found element (the first table inside `#csvTableContainer`,
or else the element with id `csvTable`): when neither exists nothing is
initialized and no request is made; when the found element's parent has
id `csvTableContainer` the widget is initialized directly on it with no
request; for any other found element a GET `/data` is issued. -/
theorem table_init_dispatch (d : TableDom) :
    (selectedTableEl d = none ↔
      d.containerTable = none ∧ d.csvTableById = none) ∧
    (selectedTableEl d = none → tableInitStep d = InitAction.noAction) ∧
    (∀ el, selectedTableEl d = some el →
      el.parentId = some "csvTableContainer" →
      tableInitStep d = InitAction.directInit preRenderedConfig) ∧
    (∀ el, selectedTableEl d = some el →
      el.parentId ≠ some "csvTableContainer" →
      tableInitStep d = InitAction.ajaxGet "/data") := by
  refine ⟨?_, ?_, ?_, ?_⟩
  · unfold selectedTableEl
    cases hc : d.containerTable <;> simp [hc]
  · intro h
    simp [tableInitStep, h]
  · intro el h hp
    simp [tableInitStep, h, hp]
  · intro el h hp
    simp [tableInitStep, h, hp]

/-- Witness for the amended C2 at the empty page. -/
theorem table_init_dispatch_witness :
    tableInitStep { containerTable := none, csvTableById := none } =
      InitAction.noAction :=
  (table_init_dispatch _).2.1 rfl

/-- Claim C8: each click on `.btn.large` sets the button's inline
`transform` to `scale(0.98)` and schedules a 150 ms timeout that clears
it to the empty string; neither step touches any other inline style
property. -/
theorem button_press_feedback (b : ButtonStyle) :
    buttonClickHandler b =
      ({ b with transform := "scale(0.98)" }, { delayMs := 150 }) ∧
    buttonTimeoutCallback (buttonClickHandler b).1 = { b with transform := "" } ∧
    (buttonClickHandler b).1.rest = b.rest ∧
    (buttonTimeoutCallback (buttonClickHandler b).1).rest = b.rest :=
  ⟨rfl, rfl, rfl, rfl⟩
